import Mathlib

/-!
Verification of `src/c++/sensors_and_messages.cpp` against its specification.

The source file is a sketch of a sensor-network message-propagation
simulator.  Its data model (`Message`, `Sensor`, the global `sensors` map)
is declared, but the executable bodies are largely missing: both branches of
`Sensor::processMessages` consist only of comments, `initialize_sensors` has
an empty body, and `main` only launches a greeting thread.  This file embeds
that source shallowly and settles the specification claims against it.
-/

namespace SensorsAndMessages

/-- `struct Message`: a destination node id and a hop count (both C++ `int`). -/
structure Message where
  dest_id : Int
  hops : Int
  deriving Repr, DecidableEq

/-- `class Sensor`: a node id, the ids of the M connected sensors
(`int connections[]`), and the list of incoming messages
(`std::list<Message*> messageList`).  The mutex guards the list; a single
call is modelled as already holding it, so the lock itself is not part of
the state. -/
structure Sensor where
  node_id : Int
  connections : List Int
  messageList : List Message
  deriving Repr, DecidableEq

/-- The state outside one sensor that `Sensor::processMessages` is meant to
touch, per the comments in its body: the "results container" of delivered
messages (line 82), the incoming message lists of the other sensors, keyed by
id as in the global `std::map` (a forward on line 88 would push into one of
them), and the completion/shutdown flag of the "check if the results
container is full ... join the thread" step (lines 93-96).  None of these is
written anywhere in the source; the embedding carries them so that the
absence of every effect is observable. -/
structure World where
  results : List Message
  inboxes : List (Int × List Message)
  shutdown : Bool
  deriving Repr, DecidableEq

/-- Shallow embedding of `Sensor::processMessages`
(src/c++/sensors_and_messages.cpp, lines 72-97).  The body unconditionally
reads `messageList.front()` and then `pop_front()`; calling `front()` on an
empty `std::list` is undefined behavior, modelled as `none`.  The branch for
`node_id == pmsg->dest_id` ("add message to results container") and the
branch for forwarding ("send it randomly to one of the connections") both
contain no statements, only comments, so the popped message is discarded and
`World` is returned unchanged on either path; the post-processing completion
check is likewise only a comment, so `shutdown` is never set. -/
def Sensor.processMessages (s : Sensor) (w : World) : Option (Sensor × World) :=
  match s.messageList with
  | [] => none
  | pmsg :: rest =>
    if s.node_id = pmsg.dest_id then
      some ({ s with messageList := rest }, w)
    else
      some ({ s with messageList := rest }, w)

/-- The error kinds the specification assigns to initialization
(`ConfigurationError`, `GraphConstructionError`).  The source raises
neither. -/
inductive SimError where
  | configurationError
  | graphConstructionError
  deriving Repr, DecidableEq

/-- Shallow embedding of `initialize_sensors`
(src/c++/sensors_and_messages.cpp, lines 113-122).  The body consists solely
of comments (stating the intended connectivity condition `(2*m + 2) > N`):
no validation is performed, no error is raised, no `Sensor` or `Message` is
created, and the global `sensors` map (here passed and returned explicitly
as an association list, mirroring `std::map<int, Sensor*>`) is left
unchanged.  The `Except` result type carries the errors the specification
demands, making visible that the code never produces one. -/
def initialize_sensors (N M : Int) (sensors : List (Int × Sensor)) :
    Except SimError (List (Int × Sensor)) :=
  Except.ok sensors

/-- `test_thread` (src lines 125-128): prints one fixed line. -/
def test_thread : List String := ["hello from thread..."]

/-- Shallow embedding of `main` (src lines 131-142): it prints one fixed
line, launches the thread running `test_thread` and joins it before
returning, so the thread's line is printed before `main` returns, and the
two output lines appear in this order (the main thread's print happens
before the thread is created).  `argc` and `argv` are never read, and the
return value is the constant 0. -/
def main (argc : Int) (argv : List String) : List String × Int :=
  (["calling the thread"] ++ test_thread, 0)

/-- C1: the claim says every message removed from a sensor's message list is
either recorded in the results container or pushed onto exactly one
neighbor's list, so the histogram total at termination equals N.  The code
violates this: this theorem evaluates `Sensor.processMessages` at a state
with a single in-flight message (destination 1, held by sensor 0) and shows
the message is popped while the results container and every neighbor inbox
stay empty — the message is lost, and the histogram total would be 0, not 1. -/
theorem C1_processMessages_loses_message :
    Sensor.processMessages ⟨0, [1, 2], [⟨1, 0⟩]⟩ ⟨[], [(1, []), (2, [])], false⟩
      = some (⟨0, [1, 2], []⟩, ⟨[], [(1, []), (2, [])], false⟩) := rfl

/-- C2: the claim says a non-addressee sensor increments the message's hops
by 1 and pushes it to a neighbor.  The code violates this: this theorem
evaluates `Sensor.processMessages` at sensor 5 holding a message for node 7
with hops 3 and shows that no message (with hops 4 or otherwise) is pushed
to any neighbor — the inboxes are unchanged and the message is discarded
with its hop count never incremented. -/
theorem C2_no_increment_no_forward :
    Sensor.processMessages ⟨5, [7, 9], [⟨7, 3⟩]⟩ ⟨[], [(7, []), (9, [])], false⟩
      = some (⟨5, [7, 9], []⟩, ⟨[], [(7, []), (9, [])], false⟩) := rfl

/-- C3: the claim says invalid pairs (N, M) — here N = 1, M = 1, which has
M ≥ N — make initialization fail with a `ConfigurationError` before any
simulation work.  The code violates this: `initialize_sensors 1 1` returns
successfully with no error. -/
theorem C3_no_configuration_error :
    initialize_sensors 1 1 [] = Except.ok [] := rfl

/-- C4: the claim says for the valid pair N = 4, M = 2 the builder produces
a connected graph on 4 nodes, each with exactly 2 distinct neighbors.  The
code violates this: `initialize_sensors 4 2` leaves the sensors map empty,
so no node, edge or graph is produced at all. -/
theorem C4_no_graph_constructed :
    initialize_sensors 4 2 [] = Except.ok [] := rfl

/-- C5: the claim says the receive/process operation blocks on an empty
mailbox (or returns a Shutdown sentinel), so the code path reading the front
element is only reachable when a message is pending.  The code violates
this: `Sensor::processMessages` reads `messageList.front()` unconditionally,
and on an empty list this is undefined behavior, modelled as `none` — this
theorem shows that state is reachable. -/
theorem C5_front_of_empty_list :
    Sensor.processMessages ⟨3, [1, 2], []⟩ ⟨[], [], false⟩ = none := rfl

/-- C6: the claim says that when the delivered count reaches N the tracker
transitions to COMPLETE once and broadcasts shutdown to every mailbox.  The
code violates this: with N = 3, two messages already delivered and sensor 2
delivering the third (destination 2), this theorem shows the completion
flag stays `false` and nothing is broadcast — no termination tracker exists
in the code (the check is only a comment). -/
theorem C6_no_shutdown_on_final_delivery :
    Sensor.processMessages ⟨2, [0, 1], [⟨2, 4⟩]⟩
        ⟨[⟨0, 1⟩, ⟨1, 2⟩], [(0, []), (1, [])], false⟩
      = some (⟨2, [0, 1], []⟩, ⟨[⟨0, 1⟩, ⟨1, 2⟩], [(0, []), (1, [])], false⟩) := rfl

/-- C7: the claim says every completed simulation yields an ordered sequence
of (hop-count, delivered-count) pairs, strictly ascending with positive
counts.  The code violates this: this theorem evaluates `main` on a concrete
invocation and shows its entire output is the two fixed greeting lines and
exit code 0 — no simulation runs and no histogram sequence of any kind is
produced. -/
theorem C7_no_histogram_output :
    SensorsAndMessages.main 1 ["./a.out"]
      = (["calling the thread", "hello from thread..."], 0) := rfl

/-- C8: the claim says at simulation start each node i gets exactly one
injected message with hops 0 and destination j ≠ i pushed into its own
mailbox.  The code violates this: starting from a sensors map holding node 0
with an empty mailbox, `initialize_sensors 10 3` returns it unchanged — no
message is ever constructed or pushed. -/
theorem C8_no_message_injected :
    initialize_sensors 10 3 [(0, ⟨0, [1, 2, 3], []⟩)]
      = Except.ok [(0, ⟨0, [1, 2, 3], []⟩)] := rfl

/-- C9: `main` ignores `argc` and `argv` entirely, runs no simulation,
prints exactly the two fixed greeting lines — "calling the thread" from the
main thread and "hello from thread..." from the test thread — and always
returns 0. -/
theorem C9_main_ignores_args (argc : Int) (argv : List String) :
    SensorsAndMessages.main argc argv
      = (["calling the thread", "hello from thread..."], 0) := rfl

/-- C10: for every pair of integers N and M, `initialize_sensors N M` leaves
all observable state unchanged — the sensors map is returned exactly as
given, no sensor or message is created, and no error is raised: the function
is a no-op for all inputs. -/
theorem C10_initialize_sensors_noop (N M : Int) (sensors : List (Int × Sensor)) :
    initialize_sensors N M sensors = Except.ok sensors := rfl

end SensorsAndMessages
